import Mathlib

/-!
Shallow embedding of `src/downloader.py` (osuTourneymapDownloader).

The program authenticates against a web service, collects beatmap-set
records through an interactive search loop into a Python `set`, filters
out records whose artifact already exists locally, and downloads the
rest sequentially with a consecutive-failure ceiling of 5.

Modelling choices:
* HTTP is abstracted by oracles: the login response status, a search
  oracle `String → List BeatmapSetData`, and a script of download
  response statuses (one per download attempt).
* The local filesystem is read through two predicates `isdir` and
  `isfile` (the code only ever queries `os.path.isdir` / `os.path.isfile`
  in the parts under study).
* Python `set` semantics: `BeatmapSet` defines neither `__eq__` nor
  `__hash__`, so CPython falls back to object identity.  Each record
  therefore carries an allocation identifier `oid`; every call of the
  `BeatmapSet` constructor yields a fresh `oid`, and `set.add` inserts
  unless an element with the same `oid` is already present.  The set is
  represented as a list; `pop` takes the head and `add` appends.
* `sys.exit(1)` is exit status 1; `sys.exit()` with no argument raises
  `SystemExit(None)`, which CPython turns into exit status 0.
-/

namespace Osu

/-- Constant `DOWNLOAD_PATH = os.curdir + "/Downloads"` (line 13). -/
def DOWNLOAD_PATH : String := "./Downloads"

/-- `os.path.join` for the relative paths used by the program. -/
def joinPath (a b : String) : String := a ++ "/" ++ b

/-- The character class of `ILLEGAL_CHARS = re.compile(r"[\<\>:\"\/\\\|\?*]")`
(line 23): the characters `< > : " / \ | ? *`. -/
def illegalChars : List Char := ['<', '>', ':', '"', '/', '\\', '|', '?', '*']

/-- One character of `ILLEGAL_CHARS.sub("_", ·)`: an illegal character
becomes an underscore, every other character is kept. -/
def sanitizeChar (c : Char) : Char := if c ∈ illegalChars then '_' else c

/-- Substitution `ILLEGAL_CHARS.sub("_", s)`: the character class matches single
characters, so the substitution is a character-wise map. -/
def illegalSub (s : String) : String := String.mk (s.data.map sanitizeChar)

/-- The search-result payload for one beatmap set, as consumed by
`BeatmapSet.__init__` (fields `id`, `title`, `artist`) and by the numeric
branch of `scrape_beatmapsets` (the ids of the nested `beatmaps` list). -/
structure BeatmapSetData where
  id : Nat
  title : String
  artist : String
  beatmaps : List Nat
  deriving DecidableEq, Repr

/-- Class `BeatmapSet` (lines 79-88).  The class defines no `__eq__`/`__hash__`,
so Python compares these objects by identity; `oid` records the object
identity of each constructor call. -/
structure BeatmapSet where
  oid : Nat
  set_id : Nat
  title : String
  artist : String
  deriving DecidableEq, Repr

/-- Constructor `BeatmapSet.__init__`: fields taken from the payload (`url` is derived,
see `BeatmapSet.url`); `oid` is the fresh object identity. -/
def mkBeatmapSet (oid : Nat) (d : BeatmapSetData) : BeatmapSet :=
  { oid := oid, set_id := d.id, title := d.title, artist := d.artist }

/-- Field `self.url`, set to `f"https://osu.ppy.sh/beatmapsets/" + set_id` (line 84). -/
def BeatmapSet.url (b : BeatmapSet) : String :=
  "https://osu.ppy.sh/beatmapsets/" ++ toString b.set_id

/-- Method `BeatmapSet.__str__` (lines 86-88): format
`f"{set_id} {artist} - {title}"`, then replace illegal characters. -/
def BeatmapSet.pyStr (b : BeatmapSet) : String :=
  illegalSub (toString b.set_id ++ " " ++ b.artist ++ " - " ++ b.title)

/-- Python `set.add` under default object identity: insert unless an element with
the same object identity is already present. -/
def pySetAdd (s : List BeatmapSet) (b : BeatmapSet) : List BeatmapSet :=
  if s.any (fun x => x.oid == b.oid) then s else s ++ [b]

/-- The Python-set representation invariant: no object occurs twice. -/
def oidsDistinct (l : List BeatmapSet) : Prop := (l.map BeatmapSet.oid).Nodup

/-- Python `str.isnumeric()` restricted to ASCII input: non-empty and all digits. -/
def pyIsNumeric (s : String) : Bool := !s.isEmpty && s.data.all Char.isDigit

/-- Python `int(s)` for a string that satisfies `isnumeric`. -/
def digitsToNat (s : String) : Nat :=
  s.data.foldl (fun a c => a * 10 + (c.toNat - 48)) 0

/-- The log messages emitted by the parts of the program under study. -/
inductive LogEntry where
  /-- Log entry of `logger.error("unable to find the beatmapset with ID: " + s)` (line 155). -/
  | notFound (q : String)
  /-- Log entry of `logger.info` for an already-downloaded beatmapset (line 171). -/
  | alreadyDownloaded (name : String)
  /-- Log entry of `logger.success` reporting the scraped count (line 163). -/
  | scraped (n : Nat)
  deriving DecidableEq, Repr

/-- The state threaded through `scrape_beatmapsets`: the working set
`self.beatmapsets`, the next fresh object identity, the local variable
`num_beatmapsets`, the emitted log entries, and the search queries issued. -/
structure ScrapeState where
  sets : List BeatmapSet
  nextOid : Nat
  lastCount : Nat
  logs : List LogEntry
  queries : List String
  deriving Repr

/-- The numeric branch of `scrape_beatmapsets` (lines 146-153): scan the
returned sets; on the first set containing a beatmap with the queried id,
construct its record, add it and stop scanning (the `chkIfExists` flag
makes the remaining iterations no-ops).  Returns the new working set, the
next object identity and the `chkIfExists` flag. -/
def scanSets (sets : List BeatmapSet) (oid : Nat) (target : Nat) :
    List BeatmapSetData → List BeatmapSet × Nat × Bool
  | [] => (sets, oid, false)
  | d :: rest =>
    if d.beatmaps.contains target then
      (pySetAdd sets (mkBeatmapSet oid d), oid + 1, true)
    else
      scanSets sets oid target rest

/-- The free-text branch `self.beatmapsets.update(BeatmapSet(bmset) for
bmset in data["beatmapsets"])` (lines 157-159): construct one fresh record
per payload and add each. -/
def updateSets (sets : List BeatmapSet) (oid : Nat) :
    List BeatmapSetData → List BeatmapSet × Nat
  | [] => (sets, oid)
  | d :: rest => updateSets (pySetAdd sets (mkBeatmapSet oid d)) (oid + 1) rest

/-- Processing of one non-empty, non-sentinel input line of
`scrape_beatmapsets` (lines 138-161): issue the search, then either the
numeric exact-id branch or the free-text branch, and update
`num_beatmapsets`. -/
def scrapeStep (search : String → List BeatmapSetData) (s : String)
    (st : ScrapeState) : ScrapeState :=
  let data := search s
  let st := { st with queries := st.queries ++ [s] }
  if pyIsNumeric s then
    let r := scanSets st.sets st.nextOid (digitsToNat s) data
    if r.2.2 then
      { st with sets := r.1, nextOid := r.2.1, lastCount := r.1.length }
    else
      { st with sets := r.1, nextOid := r.2.1, lastCount := r.1.length,
                logs := st.logs ++ [LogEntry.notFound s] }
  else
    let r := updateSets st.sets st.nextOid data
    { st with sets := r.1, nextOid := r.2, lastCount := r.1.length }

/-- The `while s != "-1"` loop of `scrape_beatmapsets` (lines 134-162) over
a list of input lines.  An empty line is skipped; the sentinel `-1` exits
the loop.  (Exhausting the input without a sentinel would raise `EOFError`
in the source; the model simply stops there.) -/
def scrapeLoop (search : String → List BeatmapSetData) :
    List String → ScrapeState → ScrapeState
  | [], st => st
  | s :: rest, st =>
    if s = "-1" then st
    else if s = "" then scrapeLoop search rest st
    else scrapeLoop search rest (scrapeStep search s st)

/-- Method `scrape_beatmapsets` (lines 126-163) from the initial state
(`self.beatmapsets = set()`, `num_beatmapsets = 0`), with the final
`Scraped ...` success log appended after the loop. -/
def scrape_beatmapsets (search : String → List BeatmapSetData)
    (lines : List String) : ScrapeState :=
  let st := scrapeLoop search lines
    { sets := [], nextOid := 0, lastCount := 0, logs := [], queries := [] }
  { st with logs := st.logs ++ [LogEntry.scraped st.lastCount] }

/-- The existing-artifact test of `remove_existing_beatmapsets`
(lines 168-170): a directory named by the canonical name, or a file named
by the canonical name plus `.osz`, inside `DOWNLOAD_PATH`. -/
def hasArtifact (isdir isfile : String → Bool) (b : BeatmapSet) : Bool :=
  isdir (joinPath DOWNLOAD_PATH b.pyStr) ||
    isfile (joinPath DOWNLOAD_PATH b.pyStr ++ ".osz")

/-- The loop of `remove_existing_beatmapsets` (lines 165-174): build
`filtered_set` by adding every record without an existing artifact, and
log the skipped ones. -/
def removeExistingLoop (isdir isfile : String → Bool) :
    List BeatmapSet → List BeatmapSet → List LogEntry →
      List BeatmapSet × List LogEntry
  | [], acc, logs => (acc, logs)
  | b :: rest, acc, logs =>
    if hasArtifact isdir isfile b then
      removeExistingLoop isdir isfile rest acc
        (logs ++ [LogEntry.alreadyDownloaded b.pyStr])
    else
      removeExistingLoop isdir isfile rest (pySetAdd acc b) logs

/-- Method `remove_existing_beatmapsets` (lines 165-174): the filtered working
set and the `already downloaded` log entries.  The filesystem predicates
are only read, never written. -/
def remove_existing_beatmapsets (isdir isfile : String → Bool)
    (sets : List BeatmapSet) : List BeatmapSet × List LogEntry :=
  removeExistingLoop isdir isfile sets [] []

/-- Test `res.status_code == requests.codes.ok` (line 183): `requests.codes.ok`
is the single status 200. -/
def statusOk (status : Nat) : Bool := status == 200

/-- The success test of `download_beatmapset_file` (lines 182-189): the
download is treated as successful exactly when the response status passes
`statusOk`; only then is the body written. -/
def downloadSuccess (status : Nat) : Bool := statusOk status

/-- The failure test of `login` (line 119):
`res.status_code != requests.codes.ok`. -/
def loginFailed (status : Nat) : Bool := status != 200

/-- The download URL built by `download_beatmapset_file` (lines 179-181):
`beatmapset.url + "/download"`, with `?noVideo=1` appended when the
`no_video` option is set. -/
def downloadUrl (no_video : Bool) (b : BeatmapSet) : String :=
  b.url ++ "/download" ++ (if no_video then "?noVideo=1" else "")

/-- The output path of `write_beatmapset_file` (line 192):
`os.path.join(DOWNLOAD_PATH, f"{filename}.osz")`. -/
def outFilePath (filename : String) : String :=
  joinPath DOWNLOAD_PATH (filename ++ ".osz")

/-- Filesystem actions performed by `write_beatmapset_file`. -/
inductive FileEvent where
  /-- Event for `open(file_path, "wb")` (line 196). -/
  | openFile (path : String)
  /-- Event for one `outfile.write(chunk)` (line 198), with the chunk size. -/
  | writeChunk (path : String) (size : Nat)
  deriving DecidableEq, Repr

/-- The exceptions `int(data.headers['content-length'])` (line 194) can
raise: `KeyError` when the header is absent, `ValueError` when its value
is not a valid integer literal. -/
inductive WriteErr where
  | keyError
  | valueError
  deriving DecidableEq, Repr

/-- Python `int(s)` on an arbitrary string: after stripping surrounding
whitespace, an optional sign followed by at least one digit; `none` models
the `ValueError` raised otherwise. -/
def pyIntParse (s : String) : Option Int :=
  let t := s.trim
  let core :=
    if t.startsWith "-" || t.startsWith "+" then (t.drop 1) else t
  if !core.isEmpty && core.data.all Char.isDigit then
    some (if t.startsWith "-" then -(digitsToNat core : Int) else (digitsToNat core : Int))
  else
    none

/-- Method `write_beatmapset_file` (lines 191-199): parse the `content-length`
header as an integer, then open the output file and write the body in
chunks.  Returns the filesystem events performed and the exception raised,
if any; the header is parsed before the file is opened, so a parse failure
performs no filesystem event. -/
def write_beatmapset_file (filename : String)
    (headers : String → Option String) (chunks : List Nat) :
    List FileEvent × Option WriteErr :=
  let file_path := outFilePath filename
  match headers "content-length" with
  | none => ([], some WriteErr.keyError)
  | some v =>
    match pyIntParse v with
    | none => ([], some WriteErr.valueError)
    | some _ =>
      (FileEvent.openFile file_path ::
        chunks.map (fun c => FileEvent.writeChunk file_path c), none)

/-- How the download loop of `run` (lines 206-221) ended. -/
inductive RunExit where
  /-- the working set drained; `run` falls through to the final log. -/
  | finished
  /-- Ceiling breach `tries > 4`: `sys.exit()` (line 220). -/
  | aborted
  /-- the response script ran out while records remained (model artifact:
  the real loop would block on the network for the next response). -/
  | starved
  deriving DecidableEq, Repr

/-- The observable outcome of the download loop of `run`. -/
structure RunState where
  exit : RunExit
  /-- the working set at loop exit. -/
  sets : List BeatmapSet
  /-- the value of `tries` at loop exit. -/
  tries : Nat
  /-- download requests issued (one per loop iteration). -/
  reqs : Nat
  /-- the URLs of the download requests, in order. -/
  urls : List String
  /-- the value of `tries` after each iteration, in order. -/
  trace : List Nat
  /-- output files written, in order (successful downloads). -/
  files : List String
  deriving DecidableEq, Repr

/-- The `while self.beatmapsets` loop of `run` (lines 206-221), driven by
the script of download response statuses.  Each iteration pops a record,
issues one request, and either consumes the record and resets `tries`
(success), or re-inserts the record and increments `tries`, aborting once
`tries > 4`. -/
def runLoop (no_video : Bool) :
    List Nat → List BeatmapSet → Nat → RunState
  | _, [], tries =>
    { exit := RunExit.finished, sets := [], tries := tries,
      reqs := 0, urls := [], trace := [], files := [] }
  | [], b :: rest, tries =>
    { exit := RunExit.starved, sets := b :: rest, tries := tries,
      reqs := 0, urls := [], trace := [], files := [] }
  | status :: script, b :: rest, tries =>
    if downloadSuccess status then
      let res := runLoop no_video script rest 0
      { res with reqs := res.reqs + 1,
                 urls := downloadUrl no_video b :: res.urls,
                 trace := 0 :: res.trace,
                 files := outFilePath b.pyStr :: res.files }
    else
      let sets' := pySetAdd rest b
      if tries + 1 > 4 then
        { exit := RunExit.aborted, sets := sets', tries := tries + 1,
          reqs := 1, urls := [downloadUrl no_video b],
          trace := [tries + 1], files := [] }
      else
        let res := runLoop no_video script sets' (tries + 1)
        { res with reqs := res.reqs + 1,
                   urls := downloadUrl no_video b :: res.urls,
                   trace := (tries + 1) :: res.trace }

/-- Method `run` (lines 201-221): the loop is entered with `tries = 0`. -/
def Downloader.run (no_video : Bool) (script : List Nat)
    (sets : List BeatmapSet) : RunState :=
  runLoop no_video script sets 0

/-- The constructor arguments of `Downloader.__init__` (line 92). -/
structure Config where
  limit : Nat
  no_video : Bool
  deriving DecidableEq, Repr

/-- The observable outcome of one whole run: `Downloader(limit, no_video)`
followed by `dl.run()` (lines 91-101, 201-221, 237-238). -/
structure ProcessResult where
  /-- the process exit status: `some 1` after `sys.exit(1)` on login
  failure (line 123), `some 0` after `sys.exit()` with no argument on a
  ceiling breach (line 220, `SystemExit(None)` exits with status 0), and
  `some 0` on normal completion (`main` returns); `none` when the response
  script starved the model. -/
  exitCode : Option Nat
  loginOk : Bool
  /-- search queries issued by the collector, in order. -/
  queries : List String
  /-- log entries of the collector and the filter. -/
  logs : List LogEntry
  /-- the outcome of the download loop, when login succeeded. -/
  engine : Option RunState
  deriving Repr

/-- One whole run: login (lines 112-124), `scrape_beatmapsets`,
`remove_existing_beatmapsets`, then `run`.  `cfg.limit` is stored by
`__init__` (line 94) and read by nothing. -/
def processRun (cfg : Config) (loginStatus : Nat)
    (lines : List String) (search : String → List BeatmapSetData)
    (isdir isfile : String → Bool) (script : List Nat) : ProcessResult :=
  if loginFailed loginStatus then
    { exitCode := some 1, loginOk := false, queries := [], logs := [],
      engine := none }
  else
    let st := scrape_beatmapsets search lines
    let fr := remove_existing_beatmapsets isdir isfile st.sets
    let r := Downloader.run cfg.no_video script fr.1
    { exitCode :=
        match r.exit with
        | RunExit.finished => some 0
        | RunExit.aborted => some 0
        | RunExit.starved => none,
      loginOk := true,
      queries := st.queries,
      logs := st.logs ++ fr.2,
      engine := some r }

/-! ### Concrete fixtures used by witnesses and counterexamples -/

/-- A search oracle that returns, for every query, one beatmap set with
id 1 containing the single beatmap 10. -/
def searchStub : String → List BeatmapSetData :=
  fun _ => [{ id := 1, title := "t", artist := "ar", beatmaps := [10] }]

/-- A filesystem on which no path exists. -/
def emptyFs : String → Bool := fun _ => false

/-- A concrete record (object identity 0, set 1). -/
def recA : BeatmapSet := { oid := 0, set_id := 1, title := "t", artist := "a" }

/-- A concrete record (object identity 1, set 2). -/
def recB : BeatmapSet := { oid := 1, set_id := 2, title := "t", artist := "a" }

/-- A filesystem on which exactly the artifact directory of `recA` exists. -/
def fsWithRecA : String → Bool :=
  fun p => p == joinPath DOWNLOAD_PATH recA.pyStr

/-- A response with no headers at all. -/
def noHeaders : String → Option String := fun _ => none

/-- The spec sentence under claim C1: no two records of the working set
share a `set_id` (records with equal `set_id` are equal). -/
def noDupSetIds (l : List BeatmapSet) : Prop :=
  ∀ a ∈ l, ∀ b ∈ l, a.set_id = b.set_id → a = b

/-! ### Helper lemmas on the Python-set model -/

lemma pySetAdd_of_oid_mem {s : List BeatmapSet} {b : BeatmapSet}
    (h : ∃ x ∈ s, x.oid = b.oid) : pySetAdd s b = s := by
  unfold pySetAdd
  rcases h with ⟨x, hx, he⟩
  rw [if_pos]
  exact List.any_eq_true.mpr ⟨x, hx, by simpa using he⟩

lemma pySetAdd_of_oid_not_mem {s : List BeatmapSet} {b : BeatmapSet}
    (h : ∀ x ∈ s, x.oid ≠ b.oid) : pySetAdd s b = s ++ [b] := by
  unfold pySetAdd
  rw [if_neg]
  intro hc
  rcases List.any_eq_true.mp hc with ⟨x, hx, he⟩
  exact h x hx (by simpa using he)

lemma pySetAdd_oidsDistinct {s : List BeatmapSet} (b : BeatmapSet)
    (h : oidsDistinct s) : oidsDistinct (pySetAdd s b) := by
  unfold pySetAdd
  by_cases hc : s.any (fun x => x.oid == b.oid) = true
  · rw [if_pos hc]; exact h
  · rw [if_neg hc]
    have hb : b.oid ∉ s.map BeatmapSet.oid := by
      intro hmem
      rcases List.mem_map.mp hmem with ⟨x, hx, he⟩
      exact hc (List.any_eq_true.mpr ⟨x, hx, by simpa using he⟩)
    unfold oidsDistinct at h ⊢
    simp [List.nodup_append, h, hb]

lemma cons_oidsDistinct_tail {b : BeatmapSet} {rest : List BeatmapSet}
    (h : oidsDistinct (b :: rest)) : oidsDistinct rest := by
  unfold oidsDistinct at h ⊢
  rw [List.map_cons, List.nodup_cons] at h
  exact h.2

lemma cons_oidsDistinct_head {b : BeatmapSet} {rest : List BeatmapSet}
    (h : oidsDistinct (b :: rest)) : ∀ x ∈ rest, x.oid ≠ b.oid := by
  unfold oidsDistinct at h
  rw [List.map_cons, List.nodup_cons] at h
  intro x hx he
  exact h.1 (List.mem_map.mpr ⟨x, hx, he⟩)

lemma requeue_oidsDistinct {b : BeatmapSet} {rest : List BeatmapSet}
    (h : oidsDistinct (b :: rest)) : oidsDistinct (rest ++ [b]) := by
  unfold oidsDistinct at h ⊢
  exact ((List.perm_append_singleton b rest).map BeatmapSet.oid).symm.nodup
    (by simpa using h)

lemma scanSets_oidsDistinct (oid target : Nat)
    (data : List BeatmapSetData) {sets : List BeatmapSet}
    (h : oidsDistinct sets) :
    oidsDistinct (scanSets sets oid target data).1 := by
  induction data with
  | nil => simpa [scanSets] using h
  | cons d rest ih =>
    simp only [scanSets]
    by_cases hc : d.beatmaps.contains target = true
    · rw [if_pos hc]; exact pySetAdd_oidsDistinct _ h
    · rw [if_neg hc]; exact ih

lemma updateSets_oidsDistinct (data : List BeatmapSetData) :
    ∀ (sets : List BeatmapSet) (oid : Nat), oidsDistinct sets →
      oidsDistinct (updateSets sets oid data).1 := by
  induction data with
  | nil => intro sets oid h; simpa [updateSets] using h
  | cons d rest ih =>
    intro sets oid h
    simp only [updateSets]
    exact ih _ _ (pySetAdd_oidsDistinct _ h)

lemma scrapeStep_oidsDistinct (search : String → List BeatmapSetData)
    (s : String) {st : ScrapeState} (h : oidsDistinct st.sets) :
    oidsDistinct (scrapeStep search s st).sets := by
  unfold scrapeStep
  by_cases hn : pyIsNumeric s = true
  · rw [if_pos hn]
    by_cases hf : (scanSets st.sets st.nextOid (digitsToNat s) (search s)).2.2 = true
    · rw [if_pos hf]
      exact scanSets_oidsDistinct _ _ _ h
    · rw [if_neg hf]
      exact scanSets_oidsDistinct _ _ _ h
  · rw [if_neg hn]
    exact updateSets_oidsDistinct _ _ _ h

lemma scrapeLoop_oidsDistinct (search : String → List BeatmapSetData) :
    ∀ (lines : List String) (st : ScrapeState), oidsDistinct st.sets →
      oidsDistinct (scrapeLoop search lines st).sets := by
  intro lines
  induction lines with
  | nil => intro st h; simpa [scrapeLoop] using h
  | cons s rest ih =>
    intro st h
    simp only [scrapeLoop]
    by_cases h1 : s = "-1"
    · rw [if_pos h1]; exact h
    · rw [if_neg h1]
      by_cases h2 : s = ""
      · rw [if_pos h2]; exact ih st h
      · rw [if_neg h2]
        exact ih _ (scrapeStep_oidsDistinct search s h)

/-! ### Helper lemmas on the download engine -/

/-- A run of consecutive failing responses long enough to breach the
ceiling aborts the loop: it issues exactly one request per failing
response entering the run, ends with `tries = 5`, and the working set at
the abort is a permutation of the working set entering the run. -/
lemma runLoop_allFail (no_video : Bool) :
    ∀ (pre more : List Nat) (sets : List BeatmapSet) (tries : Nat),
      (∀ s ∈ pre, downloadSuccess s = false) → sets ≠ [] →
      oidsDistinct sets → tries + pre.length = 5 → pre ≠ [] →
      (runLoop no_video (pre ++ more) sets tries).exit = RunExit.aborted ∧
      (runLoop no_video (pre ++ more) sets tries).reqs = pre.length ∧
      List.Perm (runLoop no_video (pre ++ more) sets tries).sets sets ∧
      (runLoop no_video (pre ++ more) sets tries).tries = 5 := by
  intro pre
  induction pre with
  | nil => intro more sets tries _ _ _ _ hne; exact absurd rfl hne
  | cons p ps ih =>
    intro more sets tries hf hne hd hlen _
    obtain ⟨b, rest, rfl⟩ : ∃ b rest, sets = b :: rest := by
      cases sets with
      | nil => exact absurd rfl hne
      | cons b rest => exact ⟨b, rest, rfl⟩
    have hp : downloadSuccess p = false := hf p (by simp)
    have hadd : pySetAdd rest b = rest ++ [b] :=
      pySetAdd_of_oid_not_mem (cons_oidsDistinct_head hd)
    have hperm : List.Perm (rest ++ [b]) (b :: rest) :=
      List.perm_append_singleton b rest
    simp only [List.cons_append, runLoop, hp, Bool.false_eq_true, if_false,
      hadd]
    cases ps with
    | nil =>
      have ht : tries = 4 := by simpa using hlen
      subst ht
      have hgt : 4 + 1 > 4 := by omega
      rw [if_pos hgt]
      exact ⟨rfl, rfl, hperm, rfl⟩
    | cons q ps' =>
      have hle : ¬ tries + 1 > 4 := by
        simp only [List.length_cons] at hlen
        omega
      rw [if_neg hle]
      have := ih more (rest ++ [b]) (tries + 1)
        (fun s hs => hf s (by simp [hs]))
        (by simp)
        (requeue_oidsDistinct hd)
        (by simp only [List.length_cons] at hlen ⊢; omega)
        (by simp)
      refine ⟨by simpa using this.1, by simpa using this.2.1, ?_,
        by simpa using this.2.2.2⟩
      simp only []
      exact (this.2.2.1).trans hperm

/-- The recurrence of the consecutive-failure counter, as specified:
reset to 0 on a success, incremented by one on a failure.  Spelled out
here as the reference the engine's trace is compared against. -/
def specCounterTrace : Nat → List Nat → List Nat
  | _, [] => []
  | t, s :: rest =>
    let t' := if downloadSuccess s then 0 else t + 1
    t' :: specCounterTrace t' rest

/-- The per-iteration trace of `tries` produced by the download loop
follows `specCounterTrace` on the response statuses actually consumed. -/
lemma runLoop_trace_eq (no_video : Bool) :
    ∀ (script : List Nat) (sets : List BeatmapSet) (tries : Nat),
      (runLoop no_video script sets tries).trace =
        specCounterTrace tries
          (script.take (runLoop no_video script sets tries).reqs) := by
  intro script
  induction script with
  | nil =>
    intro sets tries
    cases sets <;> simp [runLoop, specCounterTrace]
  | cons s script ih =>
    intro sets tries
    cases sets with
    | nil => simp [runLoop, specCounterTrace]
    | cons b rest =>
      simp only [runLoop]
      by_cases hs : downloadSuccess s = true
      · simp only [hs, if_true, List.take_succ_cons, specCounterTrace,
          if_pos hs]
        exact congrArg _ (ih rest 0)
      · simp only [hs, Bool.false_eq_true, if_false]
        by_cases hc : tries + 1 > 4
        · rw [if_pos hc]
          simp [specCounterTrace, hs]
        · rw [if_neg hc]
          simp only [List.take_succ_cons, specCounterTrace, hs,
            Bool.false_eq_true, if_false]
          exact congrArg _ (ih (pySetAdd rest b) (tries + 1))

/-! ### Helper lemmas on the collector and the filter -/

/-- When no returned set contains a beatmap with the queried id, the scan
of the numeric branch changes nothing and reports `chkIfExists = false`. -/
lemma scanSets_miss {target : Nat} {data : List BeatmapSetData}
    (h : ∀ d ∈ data, target ∉ d.beatmaps) (sets : List BeatmapSet)
    (oid : Nat) : scanSets sets oid target data = (sets, oid, false) := by
  induction data with
  | nil => rfl
  | cons d rest ih =>
    have hc : d.beatmaps.contains target = false := by
      have hm := h d (by simp)
      simp [List.elem_iff, hm]
    simp only [scanSets, hc, Bool.false_eq_true, if_false]
    exact ih (fun x hx => h x (by simp [hx]))

/-- The filter loop returns the accumulator followed by the records of the
remaining list without an existing artifact. -/
lemma removeExistingLoop_acc (isdir isfile : String → Bool) :
    ∀ (rest acc : List BeatmapSet) (logs : List LogEntry),
      oidsDistinct (acc ++ rest) →
      (removeExistingLoop isdir isfile rest acc logs).1 =
        acc ++ rest.filter (fun b => !hasArtifact isdir isfile b) := by
  intro rest
  induction rest with
  | nil => intro acc logs _; simp [removeExistingLoop]
  | cons b rest ih =>
    intro acc logs hd
    have hd' : oidsDistinct (acc ++ rest) := by
      unfold oidsDistinct at hd ⊢
      exact (List.Sublist.map BeatmapSet.oid
        ((List.sublist_cons_self b rest).append_left acc)).nodup hd
    simp only [removeExistingLoop]
    by_cases hb : hasArtifact isdir isfile b = true
    · rw [if_pos hb, ih acc _ hd']
      simp [List.filter_cons, hb]
    · rw [if_neg hb]
      have hacc : ∀ x ∈ acc, x.oid ≠ b.oid := by
        intro x hx he
        unfold oidsDistinct at hd
        rw [List.map_append, List.nodup_append] at hd
        exact hd.2.2 (List.mem_map.mpr ⟨x, hx, he⟩)
          (by simp)
      rw [pySetAdd_of_oid_not_mem hacc]
      have hd2 : oidsDistinct ((acc ++ [b]) ++ rest) := by
        rw [List.append_assoc]
        exact hd
      rw [ih (acc ++ [b]) logs hd2]
      simp [List.filter_cons, hb]

/-- The character substitution is idempotent: an underscore is not an
illegal character. -/
lemma sanitizeChar_idem (c : Char) :
    sanitizeChar (sanitizeChar c) = sanitizeChar c := by
  unfold sanitizeChar
  by_cases h : c ∈ illegalChars
  · simp [h]
  · simp [h]

instance (l : List BeatmapSet) : Decidable (oidsDistinct l) :=
  inferInstanceAs (Decidable (l.map BeatmapSet.oid).Nodup)

instance (l : List BeatmapSet) : Decidable (noDupSetIds l) :=
  inferInstanceAs (Decidable (∀ a ∈ l, ∀ b ∈ l, a.set_id = b.set_id → a = b))

/-! ### Claims -/

/-- Claim C1, counterexample: the claim states that the Working Set never
holds two records with equal `set_id`.  On the code it is false:
`BeatmapSet` defines no `__eq__`/`__hash__`, so the Python set compares
records by object identity.  Feeding the same free-text query twice, with
the search returning the same beatmap set both times, leaves two distinct
record objects with `set_id = 1` in the working set. -/
theorem C1_counterexample :
    ¬ noDupSetIds (scrape_beatmapsets searchStub ["a", "a", "-1"]).sets := by
  decide

/-- Claim C1, amended: record identity in the Working Set is object
identity, not `set_id`.  (1) After any collection run the working set
holds no object twice (pairwise distinct object identities); (2) inserting
a record object already present in the set leaves the set unchanged —
whereas a freshly constructed record is always inserted, whatever its
`set_id` (see the counterexample). -/
theorem C1_dedup_is_by_object_identity :
    (∀ (search : String → List BeatmapSetData) (lines : List String),
      oidsDistinct (scrape_beatmapsets search lines).sets) ∧
    (∀ (s : List BeatmapSet) (b : BeatmapSet),
      (∃ x ∈ s, x.oid = b.oid) → pySetAdd s b = s) := by
  constructor
  · intro search lines
    unfold scrape_beatmapsets
    exact scrapeLoop_oidsDistinct search lines _ (by decide)
  · intro s b h
    exact pySetAdd_of_oid_mem h

/-- Claim C1, witness for the amended theorem at concrete inputs. -/
theorem C1_dedup_witness :
    oidsDistinct (scrape_beatmapsets searchStub ["a", "a", "-1"]).sets ∧
    pySetAdd [recA] recA = [recA] :=
  ⟨C1_dedup_is_by_object_identity.1 searchStub ["a", "a", "-1"],
   C1_dedup_is_by_object_identity.2 [recA] recA ⟨recA, by simp, rfl⟩⟩

/-- Claim C2: after 5 consecutive failed download responses the engine
aborts (models `sys.exit`), having issued exactly 5 requests — no 6th
request regardless of the remaining script — and the working set at the
abort is a permutation of the initial one: every failing record was
re-inserted and remains present up to termination. -/
theorem C2_failure_ceiling (no_video : Bool) (s1 s2 s3 s4 s5 : Nat)
    (more : List Nat) (sets : List BeatmapSet)
    (h1 : downloadSuccess s1 = false) (h2 : downloadSuccess s2 = false)
    (h3 : downloadSuccess s3 = false) (h4 : downloadSuccess s4 = false)
    (h5 : downloadSuccess s5 = false)
    (hne : sets ≠ []) (hd : oidsDistinct sets) :
    (runLoop no_video (s1 :: s2 :: s3 :: s4 :: s5 :: more) sets 0).exit
        = RunExit.aborted ∧
    (runLoop no_video (s1 :: s2 :: s3 :: s4 :: s5 :: more) sets 0).reqs = 5 ∧
    List.Perm
      (runLoop no_video (s1 :: s2 :: s3 :: s4 :: s5 :: more) sets 0).sets
      sets ∧
    (runLoop no_video (s1 :: s2 :: s3 :: s4 :: s5 :: more) sets 0).tries
        = 5 := by
  have h := runLoop_allFail no_video [s1, s2, s3, s4, s5] more sets 0
    (by
      intro s hs
      simp only [List.mem_cons, List.not_mem_nil, or_false] at hs
      rcases hs with rfl | rfl | rfl | rfl | rfl <;> assumption)
    hne hd (by simp) (by simp)
  exact ⟨h.1, h.2.1, h.2.2.1, h.2.2.2⟩

/-- Claim C2, witness: one record, a script of five failures followed by
one more response that is never requested. -/
theorem C2_failure_ceiling_witness :
    (runLoop false [404, 404, 404, 404, 404, 500] [recA] 0).exit
        = RunExit.aborted ∧
    (runLoop false [404, 404, 404, 404, 404, 500] [recA] 0).reqs = 5 ∧
    List.Perm (runLoop false [404, 404, 404, 404, 404, 500] [recA] 0).sets
      [recA] ∧
    (runLoop false [404, 404, 404, 404, 404, 500] [recA] 0).tries = 5 :=
  C2_failure_ceiling false 404 404 404 404 404 [500] [recA]
    (by decide) (by decide) (by decide) (by decide) (by decide)
    (by decide) (by decide)

/-- Claim C3, counterexample: the claim states that a run terminated by a
failure-ceiling breach has a non-zero exit code.  On the code it is false:
line 220 calls `sys.exit()` with no argument, which exits with status 0.
Here a run whose engine aborts on the ceiling breach ends with exit
code 0. -/
theorem C3_counterexample :
    ((processRun { limit := 10, no_video := true } 200 ["a", "-1"] searchStub
        emptyFs emptyFs [404, 404, 404, 404, 404]).engine.map RunState.exit
      = some RunExit.aborted) ∧
    (processRun { limit := 10, no_video := true } 200 ["a", "-1"] searchStub
        emptyFs emptyFs [404, 404, 404, 404, 404]).exitCode = some 0 := by
  constructor
  · rfl
  · rfl

/-- Claim C3, amended: the exit code is 1 (non-zero) exactly when login
fails (`sys.exit(1)`, line 123); on a failure-ceiling breach the process
exits with code 0 (`sys.exit()` with no argument, line 220), and normal
completion (working set drained, or nothing to download) also exits
with 0. -/
theorem C3_exit_codes (cfg : Config) (loginStatus : Nat)
    (lines : List String) (search : String → List BeatmapSetData)
    (isdir isfile : String → Bool) (script : List Nat) :
    ((processRun cfg loginStatus lines search isdir isfile script).exitCode
        = some 1 ↔ loginFailed loginStatus = true) ∧
    ((processRun cfg loginStatus lines search isdir isfile script).engine.map
        RunState.exit = some RunExit.aborted →
      (processRun cfg loginStatus lines search isdir isfile script).exitCode
        = some 0) ∧
    ((processRun cfg loginStatus lines search isdir isfile script).engine.map
        RunState.exit = some RunExit.finished →
      (processRun cfg loginStatus lines search isdir isfile script).exitCode
        = some 0) := by
  unfold processRun
  by_cases h : loginFailed loginStatus = true
  · rw [if_pos h]
    exact ⟨by simp [h], by simp, by simp⟩
  · rw [if_neg h]
    simp only [Option.map_some]
    cases he : (Downloader.run cfg.no_video script
        (remove_existing_beatmapsets isdir isfile
          (scrape_beatmapsets search lines).sets).1).exit <;>
      simp [he, h]

/-- Claim C3, witness for the amended theorem: a failed login exits with
code 1; a drained working set exits with code 0. -/
theorem C3_exit_codes_witness :
    (processRun { limit := 10, no_video := true } 404 [] searchStub emptyFs
        emptyFs []).exitCode = some 1 ∧
    (processRun { limit := 10, no_video := true } 200 ["-1"] searchStub
        emptyFs emptyFs []).exitCode = some 0 :=
  ⟨(C3_exit_codes { limit := 10, no_video := true } 404 [] searchStub emptyFs
      emptyFs []).1.mpr (by decide),
   (C3_exit_codes { limit := 10, no_video := true } 200 ["-1"] searchStub
      emptyFs emptyFs []).2.2 (by decide)⟩

/-- Claim C4: the consecutive-failure counter starts at 0 (`run` enters
the loop with `tries = 0`), and the per-iteration counter trace follows
the reference recurrence `specCounterTrace` on the consumed responses:
reset to exactly 0 on each success, incremented by one on each failure
(hence monotonically non-decreasing across consecutive failures).  In the
concrete scenario of 4 failures, then a success, then one more failure,
the counter ends at 1, not 5. -/
theorem C4_counter_dynamics :
    (∀ (no_video : Bool) (script : List Nat) (sets : List BeatmapSet)
        (tries : Nat),
      (runLoop no_video script sets tries).trace =
        specCounterTrace tries
          (script.take (runLoop no_video script sets tries).reqs)) ∧
    (∀ (no_video : Bool) (script : List Nat) (sets : List BeatmapSet),
      (Downloader.run no_video script sets).trace =
        specCounterTrace 0
          (script.take (Downloader.run no_video script sets).reqs)) ∧
    (Downloader.run true [404, 404, 404, 404, 200, 404] [recA, recB]).trace
        = [1, 2, 3, 4, 0, 1] ∧
    (Downloader.run true [404, 404, 404, 404, 200, 404] [recA, recB]).tries
        = 1 := by
  refine ⟨fun nv => runLoop_trace_eq nv,
    fun nv script sets => runLoop_trace_eq nv script sets 0, ?_, ?_⟩
  · decide
  · decide

/-- Comparison definition, from the spec's words: an HTTP 2xx status. -/
def spec_is2xx (status : Nat) : Bool := decide (200 ≤ status ∧ status < 300)

/-- Claim C5, counterexample: the claim states that login and download
success are determined by the status being 2xx.  On the code both checks
are `== requests.codes.ok`, i.e. exactly 200: status 204 is 2xx but is
treated as a download failure and as a login failure. -/
theorem C5_counterexample :
    spec_is2xx 204 = true ∧ downloadSuccess 204 = false ∧
      loginFailed 204 = true := by
  decide

/-- Claim C5, amended: login succeeds, and a download is treated as
successful (body written to the output file), exactly when the response
status equals 200 (`requests.codes.ok`) — not for every 2xx status. -/
theorem C5_success_is_exactly_200 :
    (∀ status : Nat, downloadSuccess status = true ↔ status = 200) ∧
    (∀ status : Nat, loginFailed status = false ↔ status = 200) ∧
    (∀ (no_video : Bool) (status : Nat) (b : BeatmapSet),
      (runLoop no_video [status] [b] 0).files =
        if status = 200 then [outFilePath b.pyStr] else []) := by
  refine ⟨?_, ?_, ?_⟩
  · intro status
    simp [downloadSuccess, statusOk]
  · intro status
    simp [loginFailed]
  · intro nv status b
    by_cases h : status = 200
    · subst h
      simp [runLoop, downloadSuccess, statusOk]
    · rw [if_neg h]
      simp [runLoop, downloadSuccess, statusOk, h, pySetAdd]

/-- Claim C6: the Existing-Artifact Filter keeps exactly the records
without a matching local artifact (directory named by the canonical name,
or file named by the canonical name plus `.osz`): the result is the
filter of the working set by that test, and with M records matched out of
N the result has exactly N − M records.  The filesystem enters the model
only through the read-only predicates `isdir`/`isfile`; the filter
performs no filesystem mutation. -/
theorem C6_existing_artifact_filter (isdir isfile : String → Bool)
    (sets : List BeatmapSet) (hd : oidsDistinct sets) :
    (remove_existing_beatmapsets isdir isfile sets).1 =
      sets.filter (fun b => !hasArtifact isdir isfile b) ∧
    (remove_existing_beatmapsets isdir isfile sets).1.length =
      sets.length - sets.countP (fun b => hasArtifact isdir isfile b) := by
  have h1 := removeExistingLoop_acc isdir isfile sets [] [] (by simpa using hd)
  have hfil : (remove_existing_beatmapsets isdir isfile sets).1 =
      sets.filter (fun b => !hasArtifact isdir isfile b) := by
    simpa [remove_existing_beatmapsets] using h1
  refine ⟨hfil, ?_⟩
  rw [hfil, ← List.countP_eq_length_filter]
  have h2 : sets.length =
      sets.countP (fun b => hasArtifact isdir isfile b) +
        sets.countP (fun b => !hasArtifact isdir isfile b) := by
    have := List.length_eq_countP_add_countP
      (fun b => hasArtifact isdir isfile b) (l := sets)
    simpa using this
  omega

/-- Claim C6, witness: of two records, exactly the artifact of `recA`
exists (as a directory), and the filter returns exactly the other one. -/
theorem C6_existing_artifact_filter_witness :
    oidsDistinct [recA, recB] ∧
    (remove_existing_beatmapsets fsWithRecA emptyFs [recA, recB]).1
      = [recB] := by
  refine ⟨by decide, ?_⟩
  rw [(C6_existing_artifact_filter fsWithRecA emptyFs [recA, recB]
    (by decide)).1]
  decide

/-- Claim C7: the canonical name is the string
`"{set_id} {artist} - {title}"` with every character of the reserved
class `< > : " / \ | ? *` replaced by an underscore and every other
character kept; the substitution is idempotent; and for set 5, artist
"A", title "Foo: Bar/Baz" the derivation yields "5 A - Foo_ Bar_Baz". -/
theorem C7_canonical_name :
    (∀ s : String, illegalSub (illegalSub s) = illegalSub s) ∧
    (∀ b : BeatmapSet,
      b.pyStr =
        illegalSub (toString b.set_id ++ " " ++ b.artist ++ " - "
          ++ b.title)) ∧
    (∀ c ∈ illegalChars, sanitizeChar c = '_') ∧
    (∀ c : Char, c ∉ illegalChars → sanitizeChar c = c) ∧
    BeatmapSet.pyStr
        { oid := 0, set_id := 5, title := "Foo: Bar/Baz", artist := "A" }
      = "5 A - Foo_ Bar_Baz" := by
  refine ⟨?_, fun _ => rfl, fun c hc => by simp [sanitizeChar, hc],
    fun c hc => by simp [sanitizeChar, hc], by decide⟩
  intro s
  show String.mk ((s.data.map sanitizeChar).map sanitizeChar)
    = String.mk (s.data.map sanitizeChar)
  rw [List.map_map]
  exact congrArg String.mk
    (List.map_congr_left (fun a _ => sanitizeChar_idem a))

/-- Claim C7, witness: the reserved-character conjuncts instantiated at a
concrete character. -/
theorem C7_canonical_name_witness :
    sanitizeChar ':' = '_' ∧ sanitizeChar 'A' = 'A' :=
  ⟨C7_canonical_name.2.2.1 ':' (by decide),
   C7_canonical_name.2.2.2.1 'A' (by decide)⟩

/-- Claim C8: a fully numeric query whose integer matches no beatmap id in
any returned set leaves the working set (and the next object identity)
unchanged, appends exactly one "not found" log entry, records the issued
search query, and the collection loop continues with the remaining input
lines. -/
theorem C8_numeric_lookup_miss (search : String → List BeatmapSetData)
    (s : String) (rest : List String) (st : ScrapeState)
    (hs1 : s ≠ "-1") (hs2 : s ≠ "") (hn : pyIsNumeric s = true)
    (hmiss : ∀ d ∈ search s, digitsToNat s ∉ d.beatmaps) :
    scrapeLoop search (s :: rest) st =
      scrapeLoop search rest
        { st with lastCount := st.sets.length,
                  logs := st.logs ++ [LogEntry.notFound s],
                  queries := st.queries ++ [s] } := by
  obtain ⟨sets0, oid0, lc0, logs0, qs0⟩ := st
  simp only [scrapeLoop, if_neg hs1, if_neg hs2]
  congr 1
  unfold scrapeStep
  simp only []
  rw [if_pos hn, scanSets_miss hmiss]
  simp

/-- Claim C8, witness: the numeric query "1234" against a search result
whose only set has the single beatmap 10. -/
theorem C8_numeric_lookup_miss_witness :
    scrapeLoop searchStub ["1234"]
        { sets := [], nextOid := 0, lastCount := 0, logs := [],
          queries := [] } =
      scrapeLoop searchStub []
        { sets := [], nextOid := 0, lastCount := 0,
          logs := [LogEntry.notFound "1234"], queries := ["1234"] } := by
  have h := C8_numeric_lookup_miss searchStub "1234" []
    { sets := [], nextOid := 0, lastCount := 0, logs := [], queries := [] }
    (by decide) (by decide) (by decide) (by decide)
  simpa using h

/-- Claim C9: the `limit` constructor argument is stored and never read;
two whole runs differing only in `limit` have identical observable
outcomes — exit code, login result, issued search queries, log entries,
and the full engine outcome (requests, URLs, counter trace, files,
remaining set). -/
theorem C9_limit_has_no_effect (l1 l2 : Nat) (no_video : Bool)
    (loginStatus : Nat) (lines : List String)
    (search : String → List BeatmapSetData) (isdir isfile : String → Bool)
    (script : List Nat) :
    processRun { limit := l1, no_video := no_video } loginStatus lines
        search isdir isfile script =
      processRun { limit := l2, no_video := no_video } loginStatus lines
        search isdir isfile script := rfl

/-- Claim C10: `write_beatmapset_file` parses the `content-length` header
as an integer before opening the output file; if the header is absent or
its value is not an integer literal, the operation raises (`KeyError` or
`ValueError`) and performs no filesystem event — no file is created or
written. -/
theorem C10_content_length_guard (filename : String)
    (headers : String → Option String) (chunks : List Nat)
    (h : headers "content-length" = none ∨
      ∃ v, headers "content-length" = some v ∧ pyIntParse v = none) :
    (write_beatmapset_file filename headers chunks).1 = [] ∧
    (write_beatmapset_file filename headers chunks).2.isSome = true := by
  unfold write_beatmapset_file
  rcases h with h | ⟨v, hv, hp⟩
  · rw [h]
    exact ⟨rfl, rfl⟩
  · simp [hv, hp]

/-- Claim C10, witness: a response with no headers at all. -/
theorem C10_content_length_guard_witness :
    (write_beatmapset_file "x" noHeaders [4096]).1 = [] ∧
    (write_beatmapset_file "x" noHeaders [4096]).2.isSome = true :=
  C10_content_length_guard "x" noHeaders [4096] (Or.inl rfl)

end Osu
